import Mathlib

/-!
Verification development for the Super Bowl LX 4th-down analysis app
(`src/app.py`). The Python source is shallowly embedded: each function the
claims touch becomes a total Lean function, pandas rows become structures
whose numeric columns are `Option ℚ` (`none` models a value `pd.to_numeric`
coerced to NaN, or an absent key), and the external world (Supabase, the
secrets store, the Groq client) is an explicit outcome parameter so every
control path of the try/except blocks is a constructor case.
-/

namespace App

/-- Truncation toward zero, the semantics of pandas `.astype(int)` on a
numeric value (Python `int()` cast). -/
def truncInt (q : ℚ) : Int :=
  if 0 ≤ q then ⌊q⌋ else ⌈q⌉

/-- One raw row of the Supabase `play_by_play_2025` response, restricted to
the columns `get_fourth_down_data` selects. The table stores TEXT; the
numeric columns are modelled after `pd.to_numeric(..., errors="coerce")`:
`some q` is a value that parsed to the number `q`, `none` is a value that
failed to parse (NaN). `side_of_field` and `yardline_100` stay textual;
`none` models a SQL NULL (pandas NaN) later handled by `.fillna`. -/
structure RawRow where
  play_id : Nat
  qtr : Option ℚ
  ydstogo : Option ℚ
  posteam_score : Option ℚ
  defteam_score : Option ℚ
  wp : Option ℚ
  wpa : Option ℚ
  epa : Option ℚ
  play_type : String
  desc : String
  side_of_field : Option String
  yardline_100 : Option String

/-- A row of the `fourth_downs` DataFrame after the renaming and derivation
in `get_fourth_down_data` (or a fallback row from `get_fallback_data`).
`Option ℚ` columns keep NaN as `none`; `NE_SCORE` and `SEA_SCORE` went
through `.fillna(0).astype(int)` so they are plain integers. `TIME` exists
only on fallback rows. -/
structure PlayRow where
  QUARTER : Option ℚ
  TIME : Option String := none
  YARDS_TO_GO : Option ℚ
  FIELD_POSITION : String
  NE_SCORE : Int
  SEA_SCORE : Int
  SCORE_DIFFERENTIAL : Int
  PLAY_TYPE : String
  WIN_PROB_PCT : Option ℚ
  WPA_PCT : Option ℚ
  EPA : Option ℚ
  PUNT_ATTEMPT : Bool
  PLAY_DESCRIPTION : String
  deriving DecidableEq

/-- The per-row content of the transformation block of `get_fourth_down_data`
(lines 130-160 of `src/app.py`): rename, coerce scores with
`.fillna(0).astype(int)`, scale the probability columns by 100 (NaN stays
NaN, hence `Option.map`), derive `SCORE_DIFFERENTIAL`, `FIELD_POSITION`
(`.fillna("")` then string concatenation with a space) and `PUNT_ATTEMPT`. -/
def transformRow (r : RawRow) : PlayRow :=
  let ne := truncInt (r.posteam_score.getD 0)
  let sea := truncInt (r.defteam_score.getD 0)
  { QUARTER := r.qtr
    YARDS_TO_GO := r.ydstogo
    NE_SCORE := ne
    SEA_SCORE := sea
    SCORE_DIFFERENTIAL := ne - sea
    FIELD_POSITION := r.side_of_field.getD "" ++ " " ++ r.yardline_100.getD ""
    PLAY_TYPE := r.play_type
    WIN_PROB_PCT := r.wp.map (fun x => x * 100)
    WPA_PCT := r.wpa.map (fun x => x * 100)
    EPA := r.epa
    PUNT_ATTEMPT := r.play_type == "punt"
    PLAY_DESCRIPTION := r.desc }

/-- The hardcoded fallback DataFrame of `get_fallback_data`
(lines 169-204 of `src/app.py`), row for row. -/
def get_fallback_data : List PlayRow :=
  [ { QUARTER := some 1, TIME := some "10:23", YARDS_TO_GO := some 8,
      FIELD_POSITION := "SEA 44", NE_SCORE := 0, SEA_SCORE := 3,
      SCORE_DIFFERENTIAL := -3, PLAY_TYPE := "punt",
      WIN_PROB_PCT := some 38.0, WPA_PCT := some (-3.0), EPA := some (-0.5),
      PUNT_ATTEMPT := true, PLAY_DESCRIPTION := "Punt to SEA 20" },
    { QUARTER := some 1, TIME := some "5:45", YARDS_TO_GO := some 15,
      FIELD_POSITION := "NE 35", NE_SCORE := 0, SEA_SCORE := 3,
      SCORE_DIFFERENTIAL := -3, PLAY_TYPE := "punt",
      WIN_PROB_PCT := some 35.0, WPA_PCT := some (-2.0), EPA := some (-0.3),
      PUNT_ATTEMPT := true, PLAY_DESCRIPTION := "Punt downed at SEA 15" },
    { QUARTER := some 2, TIME := some "9:30", YARDS_TO_GO := some 17,
      FIELD_POSITION := "NE 28", NE_SCORE := 0, SEA_SCORE := 6,
      SCORE_DIFFERENTIAL := -6, PLAY_TYPE := "punt",
      WIN_PROB_PCT := some 25.0, WPA_PCT := some (-3.0), EPA := some (-0.4),
      PUNT_ATTEMPT := true, PLAY_DESCRIPTION := "Punt to SEA 25" },
    { QUARTER := some 2, TIME := some "2:15", YARDS_TO_GO := some 6,
      FIELD_POSITION := "SEA 38", NE_SCORE := 0, SEA_SCORE := 6,
      SCORE_DIFFERENTIAL := -6, PLAY_TYPE := "punt",
      WIN_PROB_PCT := some 22.0, WPA_PCT := some (-2.5), EPA := some (-0.6),
      PUNT_ATTEMPT := true, PLAY_DESCRIPTION := "Punt into end zone, touchback" },
    { QUARTER := some 3, TIME := some "8:40", YARDS_TO_GO := some 1,
      FIELD_POSITION := "OWN 41", NE_SCORE := 0, SEA_SCORE := 12,
      SCORE_DIFFERENTIAL := -12, PLAY_TYPE := "punt",
      WIN_PROB_PCT := some 12.0, WPA_PCT := some (-4.2), EPA := some (-0.8),
      PUNT_ATTEMPT := true, PLAY_DESCRIPTION := "4th & 1 PUNT from own 41 - THE KEY PLAY" },
    { QUARTER := some 3, TIME := some "2:30", YARDS_TO_GO := some 8,
      FIELD_POSITION := "NE 23", NE_SCORE := 0, SEA_SCORE := 12,
      SCORE_DIFFERENTIAL := -12, PLAY_TYPE := "punt",
      WIN_PROB_PCT := some 8.0, WPA_PCT := some (-2.0), EPA := some (-0.3),
      PUNT_ATTEMPT := true, PLAY_DESCRIPTION := "Punt to SEA 45" },
    { QUARTER := some 4, TIME := some "12:05", YARDS_TO_GO := some 11,
      FIELD_POSITION := "NE 19", NE_SCORE := 6, SEA_SCORE := 19,
      SCORE_DIFFERENTIAL := -13, PLAY_TYPE := "punt",
      WIN_PROB_PCT := some 5.0, WPA_PCT := some (-1.5), EPA := some (-0.2),
      PUNT_ATTEMPT := true, PLAY_DESCRIPTION := "Punt to SEA 35" },
    { QUARTER := some 4, TIME := some "5:20", YARDS_TO_GO := some 4,
      FIELD_POSITION := "SEA 48", NE_SCORE := 13, SEA_SCORE := 22,
      SCORE_DIFFERENTIAL := -9, PLAY_TYPE := "punt",
      WIN_PROB_PCT := some 6.0, WPA_PCT := some (-3.0), EPA := some (-0.7),
      PUNT_ATTEMPT := true, PLAY_DESCRIPTION := "Punt with 5 min left, down 9" } ]

/-- What the outside world did when `get_fourth_down_data` ran:
`clientNone` is `get_supabase_client()` returning `None` (its own except
branch), `exn` is an exception escaping the Supabase query, `rows` is a
completed query with `response.data` as payload (possibly empty). -/
inductive FetchOutcome where
  | clientNone
  | exn (msg : String)
  | rows (data : List RawRow)

/-- The control flow of `get_fourth_down_data` (lines 113-167 of
`src/app.py`): only a truthy client together with truthy `response.data`
reaches the transformation and returns it; the falsy-client fall-through,
the empty-data fall-through and the except branch all end at
`get_fallback_data()`. -/
def get_fourth_down_data : FetchOutcome → List PlayRow
  | .rows data => if data.isEmpty then get_fallback_data else data.map transformRow
  | .clientNone => get_fallback_data
  | .exn _ => get_fallback_data

/-- A row as `grade_decision` sees it: it only reads four keys, each through
`row.get(key, default)`, so each field is optional (`none` = key absent;
for the numeric keys `none` also covers NaN, which compares exactly like
the substituted defaults under every rule of the grader). -/
structure GRow where
  YARDS_TO_GO : Option ℚ := none
  SCORE_DIFFERENTIAL : Option ℚ := none
  WPA_PCT : Option ℚ := none
  PUNT_ATTEMPT : Option Bool := none

/-- `grade_decision` (lines 266-281 of `src/app.py`): defaults
`YARDS_TO_GO` to 10, `SCORE_DIFFERENTIAL` to 0, `WPA_PCT` to 0 and
`PUNT_ATTEMPT` to `False`, then runs the if/elif ladder. -/
def grade_decision (row : GRow) : String :=
  let ydstogo := row.YARDS_TO_GO.getD 10
  let score_diff := row.SCORE_DIFFERENTIAL.getD 0
  let wpa := row.WPA_PCT.getD 0
  let punt := row.PUNT_ATTEMPT.getD false
  if punt then
    if ydstogo ≤ 1 ∧ score_diff ≤ -10 then "🔴 TERRIBLE"
    else if ydstogo ≤ 2 ∧ score_diff ≤ -7 then "🔴 BAD"
    else if ydstogo ≤ 4 ∧ score_diff ≤ -9 then "🟡 QUESTIONABLE"
    else if wpa < -3 then "🟡 QUESTIONABLE"
    else "✅ OK"
  else "✅ OK"

/-- View of a DataFrame row through the four keys `grade_decision` reads
(all present on a `PlayRow`). -/
def PlayRow.toGRow (p : PlayRow) : GRow :=
  { YARDS_TO_GO := p.YARDS_TO_GO
    SCORE_DIFFERENTIAL := some (p.SCORE_DIFFERENTIAL : ℚ)
    WPA_PCT := p.WPA_PCT
    PUNT_ATTEMPT := some p.PUNT_ATTEMPT }

/-- The fixed limit-reached message of `get_ai_response`. -/
def limitMsg : String :=
  "⚠️ You\x27ve reached the limit of 10 questions per session. Refresh the page to start a new session."

/-- The fixed message returned when no Groq API key is configured. -/
def notConfiguredMsg : String :=
  "⚠️ Groq API key not configured. Add GROQ_API_KEY to your Streamlit secrets."

/-- Python `s[:150]`: the first `n` characters of `s` (Python slices
strings by code point, as `String.data : List Char` does). -/
def pyTake (s : String) (n : Nat) : String :=
  String.mk (s.data.take n)

/-- What the outside world does inside the `try` block of
`get_ai_response`: `importError` is an exception from `from groq import
Groq`, `secretsError` one from reading `st.secrets`, `apiKey` the resolved
key with `none` for a falsy result of the two lookups (absent or empty),
and `dispatch` the outcome of `client.chat.completions.create(...)` plus
the extraction `response.choices[0].message.content` — `.error` is any
exception raised there, `.ok` the returned content. Each field carries the
`str(e)` text of its exception. -/
structure GroqEnv where
  importError : Option String
  secretsError : Option String
  apiKey : Option String
  dispatch : Except String String

/-- Result of one `get_ai_response` call: the returned string, the value of
`st.session_state.question_count` afterwards, and whether the external
completion API was actually called. -/
structure QAResult where
  answer : String
  count : Nat
  dispatched : Bool
  deriving DecidableEq

/-- The `try`/`except` block of `get_ai_response` (lines 236-258 of
`src/app.py`), in source order: import, secrets lookup, falsy-key check,
dispatch; any exception becomes `"Error: " + str(e)[:150]`. The Bool
records whether the dispatch call was made. -/
def tryGroq (env : GroqEnv) : String × Bool :=
  match env.importError with
  | some m => ("Error: " ++ pyTake m 150, false)
  | none =>
    match env.secretsError with
    | some m => ("Error: " ++ pyTake m 150, false)
    | none =>
      match env.apiKey with
      | none => (notConfiguredMsg, false)
      | some _ =>
        match env.dispatch with
        | .error m => ("Error: " ++ pyTake m 150, true)
        | .ok content => (content, true)

/-- `get_ai_response(question, fourth_downs_df)` (lines 209-258 of
`src/app.py`). `question_count` is the session counter before the call,
`none` when the key is not yet in `st.session_state` (then it is
initialised to 0). The question and the DataFrame only feed the prompt, so
they shape `env.dispatch` but not the control flow. -/
def get_ai_response (question : String) (fourth_downs_df : List PlayRow)
    (env : GroqEnv) (question_count : Option Nat) : QAResult :=
  let c := question_count.getD 0
  if 10 ≤ c then
    { answer := limitMsg, count := c, dispatched := false }
  else
    let r := tryGroq env
    { answer := r.1, count := c + 1, dispatched := r.2 }

/-- One chat turn as a list of calls: the question asked, the DataFrame in
scope and the behaviour of the Groq boundary for that call. -/
structure CallSpec where
  question : String
  df : List PlayRow
  env : GroqEnv

/-- The session counter after a sequence of `get_ai_response` calls,
threading `st.session_state.question_count` (absent before the first
call). -/
def runCalls : List CallSpec → Option Nat → Option Nat
  | [], s => s
  | call :: rest, s =>
    runCalls rest (some (get_ai_response call.question call.df call.env s).count)

/-- Roles of the chat transcript entries in `st.session_state.messages`. -/
inductive Role where
  | user
  | assistant
  deriving DecidableEq

/-- Per-session state touched by the chat flow: the question counter and
the message history. -/
structure Session where
  question_count : Option Nat
  messages : List (Role × String)

/-- The chat handler in `tab_home` (lines 347-358 of `src/app.py`): append
the user question to `st.session_state.messages`, call `get_ai_response`,
append the assistant response. Returns the new session state and the
response text. -/
def handle_chat (question : String) (fourth_downs : List PlayRow)
    (env : GroqEnv) (s : Session) : Session × String :=
  let s1 : Session := { s with messages := s.messages ++ [(Role.user, question)] }
  let r := get_ai_response question fourth_downs env s1.question_count
  ({ question_count := some r.count
     messages := s1.messages ++ [(Role.assistant, r.answer)] }, r.answer)

/-- The grader input of claim C3: a punt-attempt row with one yard to go
and a score differential of minus ten, arbitrary WPA. -/
def keyRow (wpa : Option ℚ) : GRow :=
  { YARDS_TO_GO := some 1, SCORE_DIFFERENTIAL := some (-10),
    WPA_PCT := wpa, PUNT_ATTEMPT := some true }

/-- A grader row with every missing optional field replaced by the default
`row.get` supplies in `grade_decision`: 10, 0, 0 and `False`. -/
def fillDefaults (r : GRow) : GRow :=
  { YARDS_TO_GO := some (r.YARDS_TO_GO.getD 10)
    SCORE_DIFFERENTIAL := some (r.SCORE_DIFFERENTIAL.getD 0)
    WPA_PCT := some (r.WPA_PCT.getD 0)
    PUNT_ATTEMPT := some (r.PUNT_ATTEMPT.getD false) }

/-- Claim C2: `grade_decision` is a total, deterministic function — equal
rows get equal labels — and its result is always one of exactly the four
fixed labels TERRIBLE, BAD, QUESTIONABLE, OK. -/
theorem grade_decision_total_deterministic :
    (∀ r s : GRow, r = s → grade_decision r = grade_decision s) ∧
    (∀ r : GRow,
      grade_decision r = "🔴 TERRIBLE" ∨ grade_decision r = "🔴 BAD" ∨
      grade_decision r = "🟡 QUESTIONABLE" ∨ grade_decision r = "✅ OK") := by
  constructor
  · intro r s h
    rw [h]
  · intro r
    unfold grade_decision
    dsimp only
    split_ifs <;> tauto

/-- Witness for C2 at the row of the key play. -/
theorem grade_decision_total_deterministic_witness :
    grade_decision ⟨some 1, some (-12), some (-4.2), some true⟩ =
      grade_decision ⟨some 1, some (-12), some (-4.2), some true⟩ ∧
    (grade_decision ⟨some 1, some (-12), some (-4.2), some true⟩ = "🔴 TERRIBLE" ∨
     grade_decision ⟨some 1, some (-12), some (-4.2), some true⟩ = "🔴 BAD" ∨
     grade_decision ⟨some 1, some (-12), some (-4.2), some true⟩ = "🟡 QUESTIONABLE" ∨
     grade_decision ⟨some 1, some (-12), some (-4.2), some true⟩ = "✅ OK") :=
  ⟨grade_decision_total_deterministic.1 _ _ rfl,
   grade_decision_total_deterministic.2 _⟩

/-- Claim C3: ordered rule evaluation with first match winning — every
punt-attempt row with `yards_to_go = 1` and `score_differential = -10`
grades TERRIBLE, although the row also satisfies the BAD-rule conditions
(`yards_to_go ≤ 2` and `score_differential ≤ -7`) and the
QUESTIONABLE-rule conditions (`yards_to_go ≤ 4` and
`score_differential ≤ -9`). -/
theorem grade_decision_first_match_terrible :
    ∀ wpa : Option ℚ,
      grade_decision (keyRow wpa) = "🔴 TERRIBLE" ∧
      ((keyRow wpa).YARDS_TO_GO.getD 10 ≤ 2 ∧
        (keyRow wpa).SCORE_DIFFERENTIAL.getD 0 ≤ -7) ∧
      ((keyRow wpa).YARDS_TO_GO.getD 10 ≤ 4 ∧
        (keyRow wpa).SCORE_DIFFERENTIAL.getD 0 ≤ -9) := by
  intro wpa
  refine ⟨?_, by norm_num [keyRow], by norm_num [keyRow]⟩
  unfold grade_decision keyRow
  norm_num

/-- Claim C10: `grade_decision` is total on rows with missing fields by
substituting the fixed defaults 10, 0, 0, `False`, and a row lacking
`PUNT_ATTEMPT` always grades OK. -/
theorem grade_decision_defaults :
    (∀ r : GRow, grade_decision (fillDefaults r) = grade_decision r) ∧
    (∀ r : GRow, r.PUNT_ATTEMPT = none → grade_decision r = "✅ OK") := by
  constructor
  · intro r
    simp [grade_decision, fillDefaults]
  · intro r h
    simp [grade_decision, h]

/-- Witness for C10: a row whose other fields satisfy every punt rule
still grades OK when `PUNT_ATTEMPT` is absent. -/
theorem grade_decision_defaults_witness :
    grade_decision ⟨some 1, some (-12), some (-10), none⟩ = "✅ OK" :=
  grade_decision_defaults.2 ⟨some 1, some (-12), some (-10), none⟩ rfl

/-- Claim C4: whenever the remote fetch fails (no client, exception) or
returns no rows, `get_fourth_down_data` returns exactly the fixed fallback
sequence of 8 records, whose first record has quarter 1, yards-to-go 8 and
field position "SEA 44"; the function is total (never raises) and never
returns an empty sequence. -/
theorem get_fourth_down_data_fallback :
    (∀ m, get_fourth_down_data (.exn m) = get_fallback_data) ∧
    get_fourth_down_data .clientNone = get_fallback_data ∧
    get_fourth_down_data (.rows []) = get_fallback_data ∧
    get_fallback_data.length = 8 ∧
    get_fallback_data.head?.map (fun r => r.QUARTER) = some (some 1) ∧
    get_fallback_data.head?.map (fun r => r.YARDS_TO_GO) = some (some 8) ∧
    get_fallback_data.head?.map (fun r => r.FIELD_POSITION) = some "SEA 44" ∧
    (∀ o, 0 < (get_fourth_down_data o).length) := by
  refine ⟨fun m => rfl, rfl, rfl, rfl, rfl, rfl, rfl, ?_⟩
  intro o
  cases o with
  | clientNone => simp [get_fourth_down_data, get_fallback_data]
  | exn m => simp [get_fourth_down_data, get_fallback_data]
  | rows data =>
    cases data with
    | nil => simp [get_fourth_down_data, get_fallback_data]
    | cons r l => simp [get_fourth_down_data]

/-- Claim C5: every transformed row has
`SCORE_DIFFERENTIAL = NE_SCORE - SEA_SCORE`, and a source score that
failed to parse (NaN) is coerced to 0 before the subtraction; the
derivation is a total function. -/
theorem score_differential_spec :
    ∀ r : RawRow,
      (transformRow r).SCORE_DIFFERENTIAL =
        (transformRow r).NE_SCORE - (transformRow r).SEA_SCORE ∧
      (r.posteam_score = none → (transformRow r).NE_SCORE = 0) ∧
      (r.defteam_score = none → (transformRow r).SEA_SCORE = 0) := by
  intro r
  refine ⟨rfl, fun h => ?_, fun h => ?_⟩
  · norm_num [transformRow, h, truncInt]
  · norm_num [transformRow, h, truncInt]

/-- A raw row whose score columns both failed numeric coercion. -/
def rawRowUnparsed : RawRow :=
  { play_id := 1, qtr := some 3, ydstogo := some 1,
    posteam_score := none, defteam_score := none,
    wp := none, wpa := none, epa := none,
    play_type := "punt", desc := "4th and 1 punt",
    side_of_field := none, yardline_100 := none }

/-- Witness for C5 on a row with two unparseable scores. -/
theorem score_differential_spec_witness :
    (transformRow rawRowUnparsed).SCORE_DIFFERENTIAL =
      (transformRow rawRowUnparsed).NE_SCORE - (transformRow rawRowUnparsed).SEA_SCORE ∧
    (transformRow rawRowUnparsed).NE_SCORE = 0 ∧
    (transformRow rawRowUnparsed).SEA_SCORE = 0 :=
  ⟨(score_differential_spec rawRowUnparsed).1,
   (score_differential_spec rawRowUnparsed).2.1 rfl,
   (score_differential_spec rawRowUnparsed).2.2 rfl⟩

/-- Every fallback row already satisfies the punt-flag invariant. -/
lemma fallback_punt_flag :
    ∀ row ∈ get_fallback_data, (row.PUNT_ATTEMPT = true ↔ row.PLAY_TYPE = "punt") := by
  decide

/-- Claim C6: in every dataset `get_fourth_down_data` can return — a
transformed remote fetch or the fallback — the `PUNT_ATTEMPT` flag of each
row is true exactly when its `PLAY_TYPE` is "punt". -/
theorem punt_attempt_iff_punt :
    ∀ (o : FetchOutcome), ∀ row ∈ get_fourth_down_data o,
      (row.PUNT_ATTEMPT = true ↔ row.PLAY_TYPE = "punt") := by
  intro o row hmem
  cases o with
  | clientNone => exact fallback_punt_flag row hmem
  | exn m => exact fallback_punt_flag row hmem
  | rows data =>
    simp only [get_fourth_down_data] at hmem
    split at hmem
    · exact fallback_punt_flag row hmem
    · rcases List.mem_map.mp hmem with ⟨r, _, rfl⟩
      simp [transformRow]

/-- Witness for C6 at the first fallback record. -/
theorem punt_attempt_iff_punt_witness :
    ((get_fallback_data.get ⟨0, by norm_num [get_fallback_data]⟩).PUNT_ATTEMPT = true ↔
      (get_fallback_data.get ⟨0, by norm_num [get_fallback_data]⟩).PLAY_TYPE = "punt") :=
  punt_attempt_iff_punt .clientNone _ (List.get_mem get_fallback_data 0 _)

/-- A Groq boundary where everything succeeds. -/
def envOk : GroqEnv :=
  { importError := none, secretsError := none, apiKey := some "k",
    dispatch := .ok "The punt on 4th and 1 was the worst decision." }

/-- A Groq boundary whose dispatch raises (simulated network failure). -/
def envErr : GroqEnv :=
  { importError := none, secretsError := none, apiKey := some "k",
    dispatch := .error "connection failed" }

/-- A Groq boundary with no API key configured. -/
def envNoKey : GroqEnv :=
  { importError := none, secretsError := none, apiKey := none,
    dispatch := .ok "unused" }

/-- A session quota counter stays at most 10 after any further calls. -/
lemma runCalls_le :
    ∀ (calls : List CallSpec) (c : Nat), c ≤ 10 →
      (runCalls calls (some c)).getD 0 ≤ 10 := by
  intro calls
  induction calls with
  | nil =>
    intro c h
    simpa using h
  | cons call rest ih =>
    intro c h
    by_cases hc : 10 ≤ c
    · have hcount : (get_ai_response call.question call.df call.env (some c)).count = c := by
        simp [get_ai_response, hc]
      simpa [runCalls, hcount] using ih c h
    · have hcount : (get_ai_response call.question call.df call.env (some c)).count = c + 1 := by
        simp [get_ai_response, hc]
      exact by simpa [runCalls, hcount] using ih (c + 1) (by omega)

/-- Claim C1: the question counter starts at 0 (a missing counter behaves
like 0); a call with counter already at least 10 returns the fixed limit
message, leaves the counter unchanged and dispatches nothing; a call under
the quota increments the counter by one; and over any sequence of calls
from a fresh session the counter never exceeds 10. -/
theorem get_ai_response_quota :
    (∀ q df env, get_ai_response q df env none = get_ai_response q df env (some 0)) ∧
    (∀ q df env c, 10 ≤ c →
      get_ai_response q df env (some c) =
        { answer := limitMsg, count := c, dispatched := false }) ∧
    (∀ q df env c, c < 10 →
      (get_ai_response q df env (some c)).count = c + 1) ∧
    (∀ calls : List CallSpec, (runCalls calls none).getD 0 ≤ 10) := by
  refine ⟨fun q df env => rfl, ?_, ?_, ?_⟩
  · intro q df env c h
    simp [get_ai_response, h]
  · intro q df env c h
    simp [get_ai_response, Nat.not_le.mpr h]
  · intro calls
    cases calls with
    | nil => simp [runCalls]
    | cons call rest =>
      have h0 : (get_ai_response call.question call.df call.env none).count = 1 := by
        simp [get_ai_response]
      simpa [runCalls, h0] using runCalls_le rest 1 (by omega)

/-- Witness for C1: the 11th question hits the limit untouched, the 10th
still increments. -/
theorem get_ai_response_quota_witness :
    get_ai_response "q" [] envOk (some 10) =
      { answer := limitMsg, count := 10, dispatched := false } ∧
    (get_ai_response "q" [] envOk (some 9)).count = 10 :=
  ⟨get_ai_response_quota.2.1 "q" [] envOk 10 (by norm_num),
   get_ai_response_quota.2.2.1 "q" [] envOk 9 (by norm_num)⟩

/-- Appending at most 150 characters to the 7-character prefix keeps the
error string within 160 characters. -/
lemma error_string_length (m : String) : ("Error: " ++ pyTake m 150).length ≤ 160 := by
  have h1 : ("Error: " ++ pyTake m 150).length = "Error: ".length + (pyTake m 150).length :=
    String.length_append _ _
  have h2 : (pyTake m 150).length = min 150 m.data.length := by
    simp [pyTake, String.length_mk, List.length_take]
  have h3 : min 150 m.data.length ≤ 150 := Nat.min_le_left _ _
  have h4 : "Error: ".length = 7 := by decide
  omega

/-- Claim C7: under the quota, any exception raised inside the try block —
an import failure, the secrets store raising, or the dispatch itself
failing — is caught and turned into "Error: " followed by the first 150
characters of the exception text, a string of at most 160 characters; the
embedding is a total function, so nothing propagates. -/
theorem get_ai_response_error_truncation :
    ∀ q df env c m, c < 10 →
      (env.importError = some m ∨
       env.importError = none ∧ env.secretsError = some m ∨
       env.importError = none ∧ env.secretsError = none ∧
         env.apiKey.isSome = true ∧ env.dispatch = .error m) →
      (get_ai_response q df env (some c)).answer = "Error: " ++ pyTake m 150 ∧
      (get_ai_response q df env (some c)).answer.length ≤ 160 := by
  intro q df env c m hc hcase
  have hanswer : (get_ai_response q df env (some c)).answer = "Error: " ++ pyTake m 150 := by
    rcases hcase with h | ⟨h1, h2⟩ | ⟨h1, h2, h3, h4⟩
    · simp [get_ai_response, tryGroq, Nat.not_le.mpr hc, h]
    · simp [get_ai_response, tryGroq, Nat.not_le.mpr hc, h1, h2]
    · rcases Option.isSome_iff_exists.mp h3 with ⟨k, hk⟩
      simp [get_ai_response, tryGroq, Nat.not_le.mpr hc, h1, h2, hk, h4]
  exact ⟨hanswer, hanswer ▸ error_string_length m⟩

/-- Witness for C7 on a simulated network failure. -/
theorem get_ai_response_error_truncation_witness :
    (get_ai_response "q" [] envErr (some 0)).answer =
      "Error: " ++ pyTake "connection failed" 150 ∧
    (get_ai_response "q" [] envErr (some 0)).answer.length ≤ 160 :=
  get_ai_response_error_truncation "q" [] envErr 0 "connection failed" (by norm_num)
    (Or.inr (Or.inr ⟨rfl, rfl, rfl, rfl⟩))

/-- Claim C8: one chat turn appends exactly the user question and then the
returned answer to the session message history, in that order. -/
theorem handle_chat_messages :
    ∀ q df env s, (handle_chat q df env s).1.messages =
      s.messages ++ [(Role.user, q), (Role.assistant, (handle_chat q df env s).2)] := by
  intro q df env s
  simp [handle_chat]

/-- Claim C9: under the quota with the import and secrets lookups
succeeding but no API key configured, the call returns the fixed
not-configured message, makes no external call, and has already consumed a
question: the counter ends at its old value plus one. -/
theorem not_configured_consumes_question :
    ∀ q df env c, c < 10 → env.importError = none → env.secretsError = none →
      env.apiKey = none →
      get_ai_response q df env (some c) =
        { answer := notConfiguredMsg, count := c + 1, dispatched := false } := by
  intro q df env c hc h1 h2 h3
  simp [get_ai_response, tryGroq, Nat.not_le.mpr hc, h1, h2, h3]

/-- Witness for C9: the first question of a session with no key configured
ends with the counter at 1. -/
theorem not_configured_consumes_question_witness :
    get_ai_response "q" [] envNoKey (some 0) =
      { answer := notConfiguredMsg, count := 1, dispatched := false } :=
  not_configured_consumes_question "q" [] envNoKey 0 (by norm_num) rfl rfl rfl

end App
